import Mathlib

/-!
Shallow embedding of the Moktobrowser session supervisor
(`src/index.ts`, class `BulletproofOctoMobilePlaywright`).

JavaScript numbers are modelled as rationals (`ℚ`); `Math.random()` draws
are passed in explicitly as oracle inputs.  Side effects (CDP sends,
geolocation pushes, timer clears, resource closes, `process.exit`) are
recorded in an explicit `Effect` list, in the order the source issues them.
External calls that can throw are given explicit failure oracles; the
source wraps each of them in `try`/`catch`, which is mirrored by recording
the attempt together with its `failed` flag and continuing.
-/

namespace Mokto

/-- `NOISE_MULTIPLIER` from `src/index.ts` line 14. -/
def NOISE_MULTIPLIER : ℚ := 70

/-- `GEO_DRIFT_PROBABILITY` from `src/index.ts` line 15 (22% per tick). -/
def GEO_DRIFT_PROBABILITY : ℚ := 0.22

/-- `GEO_DRIFT_AMOUNT` from `src/index.ts` line 16. -/
def GEO_DRIFT_AMOUNT : ℚ := 0.003

/-- `LON_DRIFT_MULTIPLIER` from `src/index.ts` line 17. -/
def LON_DRIFT_MULTIPLIER : ℚ := 1.3

/-- `MAX_RESTARTS` field of the class (`src/index.ts` line 44). -/
def MAX_RESTARTS : Nat := 7

/-- `SensorConfig` interface (`src/index.ts` lines 19-24); ranges are
`[min, max]` pairs, geolocation is a lat/lon pair with accuracy. -/
structure SensorConfig where
  geoLat : ℚ
  geoLon : ℚ
  geoAccuracy : ℚ
  geoIntervalMs : Nat
  alphaRange : ℚ × ℚ
  betaRange : ℚ × ℚ
  gammaRange : ℚ × ℚ
  orientationIntervalMs : Nat
  movementNoise : ℚ
  viewportWidth : Nat
  viewportHeight : Nat
deriving DecidableEq, Repr

/-- `IPHONE_15_PRO` default profile (`src/index.ts` lines 26-31). -/
def IPHONE_15_PRO : SensorConfig where
  geoLat := 40.7128
  geoLon := -74.0060
  geoAccuracy := 5
  geoIntervalMs := 45000
  alphaRange := (0, 360)
  betaRange := (-60, 60)
  gammaRange := (-45, 45)
  orientationIntervalMs := 2800
  movementNoise := 0.18
  viewportWidth := 393
  viewportHeight := 852

/-- `this.currentOrientation` record: alpha/beta/gamma in degrees. -/
structure Orientation where
  alpha : ℚ
  beta : ℚ
  gamma : ℚ
deriving DecidableEq, Repr

/-- `this.currentGeo` record: latitude/longitude in degrees. -/
structure Geo where
  lat : ℚ
  lon : ℚ
deriving DecidableEq, Repr

/-- The individual steps of `stopAll` (`src/index.ts` lines 419-495),
in source order. -/
inductive TeardownStep
  | clearSensorTimer
  | clearHealthTimer
  | traceStop
  | cdpDetach
  | pageClose
  | contextClose
  | browserClose
  | stopOcto
deriving DecidableEq, Repr

/-- Observable side effects of the supervisor, recorded in issue order.
`teardown st failed` is an attempted teardown step together with whether
the underlying call threw (the source swallows each such failure). -/
inductive Effect
  | teardown (step : TeardownStep) (failed : Bool)
  | exitProcess (code : Nat)
  | sleep (ms : Nat)
  | incCounter (newValue : Nat)
  | launchCall
  | setOrientationOverride (alpha beta gamma : ℚ)
  | setGeolocation (lat lon : ℚ)
deriving DecidableEq, Repr

/-- The scalar fields of `BulletproofOctoMobilePlaywright`
(`src/index.ts` lines 33-47).  Resource references (`browser`, `context`,
`page`, `cdp`, the two interval handles, `wsEndpoint`) are modelled as
booleans: `true` = non-null.  `pageClosed` models `page.isClosed()`. -/
structure SupState where
  profileUuid : String
  config : SensorConfig
  browser : Bool
  context : Bool
  page : Bool
  pageClosed : Bool
  cdp : Bool
  wsEndpoint : Bool
  isRunning : Bool
  sensorInterval : Bool
  healthInterval : Bool
  restartCount : Nat
  currentGeo : Geo
  currentOrientation : Orientation
deriving DecidableEq, Repr

/-- The constructor (`src/index.ts` lines 49-55): all resources null,
`currentGeo` from the (merged) config, `currentOrientation = {35, 25, 10}`. -/
def mkSupervisor (uuid : String) (config : SensorConfig) : SupState where
  profileUuid := uuid
  config := config
  browser := false
  context := false
  page := false
  pageClosed := false
  cdp := false
  wsEndpoint := false
  isRunning := false
  sensorInterval := false
  healthInterval := false
  restartCount := 0
  currentGeo := { lat := config.geoLat, lon := config.geoLon }
  currentOrientation := { alpha := 35, beta := 25, gamma := 10 }

/-- `clamp` (`src/index.ts` lines 264-266):
`Math.max(min, Math.min(max, val))`. -/
def clamp (val lo hi : ℚ) : ℚ := max lo (min hi val)

/-- `randomWalk` (`src/index.ts` lines 257-259):
`current + (Math.random() - 0.5) * noise * NOISE_MULTIPLIER`, the draw
`rand` passed explicitly. -/
def randomWalk (current noise rand : ℚ) : ℚ :=
  current + (rand - 0.5) * noise * NOISE_MULTIPLIER

/-- Inter-attempt backoff delay of `retry` (`src/index.ts` line 78):
`Math.min(baseDelay * Math.pow(2, attempt - 1), 30_000)` with the default
`baseDelay = 1200`; `attempt` is 1-based. -/
def retryDelay (attempt : Nat) : Nat :=
  min (1200 * 2 ^ (attempt - 1)) 30000

/-- The random draws and failure oracle consumed by one sensor tick
(`src/index.ts` lines 274-318): one uniform draw per orientation axis,
one draw for the geolocation-drift probability test, one shared draw for
the geolocation delta, plus whether the orientation CDP send throws
(in which case the `catch` skips the geolocation branch). -/
structure TickRand where
  rAlpha : ℚ
  rBeta : ℚ
  rGamma : ℚ
  rGeoDraw : ℚ
  rGeoDrift : ℚ
  orientationSendFails : Bool
deriving DecidableEq, Repr

/-- One body execution of the `setInterval` callback of
`startSensorSimulation` (`src/index.ts` lines 274-318).  Returns the
updated state and the effects issued.  Mirrors the source: early return
when `!isRunning || !cdp`; each axis random-walked then clamped to its
configured range; orientation pushed via CDP; then, only when the
probability draw succeeds, a single shared delta mutates both coordinates
(longitude scaled by `LON_DRIFT_MULTIPLIER`) and the geolocation is
pushed.  A throwing orientation send is caught, skipping the rest. -/
def sensorTick (s : SupState) (r : TickRand) : SupState × List Effect :=
  if !s.isRunning || !s.cdp then (s, [])
  else
    let cfg := s.config
    let alpha := clamp (randomWalk s.currentOrientation.alpha cfg.movementNoise r.rAlpha)
      cfg.alphaRange.1 cfg.alphaRange.2
    let beta := clamp (randomWalk s.currentOrientation.beta cfg.movementNoise r.rBeta)
      cfg.betaRange.1 cfg.betaRange.2
    let gamma := clamp (randomWalk s.currentOrientation.gamma cfg.movementNoise r.rGamma)
      cfg.gammaRange.1 cfg.gammaRange.2
    let s1 := { s with currentOrientation := { alpha := alpha, beta := beta, gamma := gamma } }
    if r.orientationSendFails then
      (s1, [Effect.setOrientationOverride alpha beta gamma])
    else if r.rGeoDraw < GEO_DRIFT_PROBABILITY then
      let drift := (r.rGeoDrift - 0.5) * GEO_DRIFT_AMOUNT
      let s2 := { s1 with currentGeo :=
        { lat := s1.currentGeo.lat + drift,
          lon := s1.currentGeo.lon + drift * LON_DRIFT_MULTIPLIER } }
      (s2, [Effect.setOrientationOverride alpha beta gamma,
            Effect.setGeolocation s2.currentGeo.lat s2.currentGeo.lon])
    else
      (s1, [Effect.setOrientationOverride alpha beta gamma])

/-- `Effect` is a geolocation push. -/
def isGeoPush : Effect → Bool
  | .setGeolocation _ _ => true
  | _ => false

/-- `Effect` is an orientation push. -/
def isOrientationPush : Effect → Bool
  | .setOrientationOverride _ _ _ => true
  | _ => false

/-- `stopAll(silent)` (`src/index.ts` lines 419-495).  Mirrors the source
order: set `isRunning = false`; clear the sensor interval then the health
interval (each only if non-null, each nulled); then best-effort, each
wrapped in its own `try`/`catch`: stop tracing (guarded on `context`),
detach CDP (nulled even on failure), close the page (only if non-null and
not already closed; nulled even on failure), close the context (nulled),
close the browser (nulled), call the profile-stop API (guarded on a
non-empty uuid, result ignored); finally `process.exit(0)` only when not
`silent`.  `fail` tells which attempted step throws; every such failure is
swallowed, so the state outcome does not depend on `fail`. -/
def stopAll (s : SupState) (silent : Bool) (fail : TeardownStep → Bool) :
    SupState × List Effect :=
  let timerEffs :=
    (if s.sensorInterval then [Effect.teardown .clearSensorTimer false] else []) ++
    (if s.healthInterval then [Effect.teardown .clearHealthTimer false] else [])
  let traceEffs := if s.context then [Effect.teardown .traceStop (fail .traceStop)] else []
  let cdpEffs := if s.cdp then [Effect.teardown .cdpDetach (fail .cdpDetach)] else []
  let pageEffs :=
    if s.page && !s.pageClosed then [Effect.teardown .pageClose (fail .pageClose)] else []
  let ctxEffs := if s.context then [Effect.teardown .contextClose (fail .contextClose)] else []
  let browserEffs := if s.browser then [Effect.teardown .browserClose (fail .browserClose)] else []
  let octoEffs :=
    if s.profileUuid = "" then [] else [Effect.teardown .stopOcto (fail .stopOcto)]
  let exitEffs := if silent then [] else [Effect.exitProcess 0]
  ({ s with
      isRunning := false
      sensorInterval := false
      healthInterval := false
      cdp := false
      page := if s.page && !s.pageClosed then false else s.page
      context := false
      browser := false },
    timerEffs ++ traceEffs ++ cdpEffs ++ pageEffs ++ ctxEffs ++ browserEffs ++ octoEffs ++ exitEffs)

/-- The successive phases of `launch()` (`src/index.ts` lines 180-235),
in source order, after `isRunning` is set.  Each phase is an external
call that can throw. -/
inductive LaunchPhase
  | startProfile
  | connectCDP
  | acquirePage
  | applyEmulationContext
  | createCDPSession
  | cdpEmulation
  | tracingStart
  | sensorOverrides
  | startSensorTimer
  | startHealthTimer
deriving DecidableEq, Repr

/-- State update and effects of one phase of `launch()`:
`startOctoProfile` stores the ws endpoint; `connectOverCDP` assigns the
browser; context/page acquisition assigns both; the context-level
emulation pushes the *configured* geolocation (`src/index.ts` lines
191-195); `newCDPSession` assigns `cdp`; `setupSensorOverrides` pushes the
*current* orientation (`src/index.ts` lines 245-249); the two
`start*`-timer phases assign the interval handles. -/
def launchStep (s : SupState) : LaunchPhase → SupState × List Effect
  | .startProfile => ({ s with wsEndpoint := true }, [])
  | .connectCDP => ({ s with browser := true }, [])
  | .acquirePage => ({ s with context := true, page := true, pageClosed := false }, [])
  | .applyEmulationContext => (s, [Effect.setGeolocation s.config.geoLat s.config.geoLon])
  | .createCDPSession => ({ s with cdp := true }, [])
  | .cdpEmulation => (s, [])
  | .tracingStart => (s, [])
  | .sensorOverrides =>
      (s, [Effect.setOrientationOverride s.currentOrientation.alpha
            s.currentOrientation.beta s.currentOrientation.gamma])
  | .startSensorTimer => ({ s with sensorInterval := true }, [])
  | .startHealthTimer => ({ s with healthInterval := true }, [])

/-- The phases of `launch()` in source order. -/
def launchPhases : List LaunchPhase :=
  [.startProfile, .connectCDP, .acquirePage, .applyEmulationContext, .createCDPSession,
   .cdpEmulation, .tracingStart, .sensorOverrides, .startSensorTimer, .startHealthTimer]

/-- Runs launch phases in order; `failAt = some ph` means the call of
phase `ph` throws, aborting the remainder (the exception propagates to
the caller, leaving the state as accumulated so far). -/
def runPhases (failAt : Option LaunchPhase) : SupState → List LaunchPhase →
    SupState × Bool × List Effect
  | s, [] => (s, true, [])
  | s, ph :: rest =>
    if failAt = some ph then (s, false, [])
    else
      let p := launchStep s ph
      let q := runPhases failAt p.1 rest
      (q.1, q.2.1, p.2 ++ q.2.2)

/-- `launch()` (`src/index.ts` lines 180-235): sets `isRunning = true`
first (line 181), then performs the external phases in order; a throwing
phase propagates, with no rollback of `isRunning` or of already-assigned
resources.  Returns the state, whether launch completed, and the effects. -/
def launch (s : SupState) (failAt : Option LaunchPhase) : SupState × Bool × List Effect :=
  runPhases failAt { s with isRunning := true } launchPhases

/-- `restart()` (`src/index.ts` lines 393-414).  If the counter has
reached `MAX_RESTARTS`, perform a silent final teardown and return.
Otherwise increment the counter, tear down silently, sleep 5000 ms,
relaunch (`lf k` tells whether/where the `k`-th relaunch attempt throws);
on success reset the counter to 0; on failure sleep 5000 ms and recurse.
The recursion is bounded because the counter only grows until the cap. -/
def restart (s : SupState) (fail : TeardownStep → Bool)
    (lf : Nat → Option LaunchPhase) (k : Nat) : SupState × List Effect :=
  if _h : s.restartCount ≥ MAX_RESTARTS then
    stopAll s true fail
  else
    let s1 := { s with restartCount := s.restartCount + 1 }
    let p := stopAll s1 true fail
    let q := launch p.1 (lf k)
    let effs := Effect.incCounter s1.restartCount ::
      p.2 ++ [Effect.sleep 5000, Effect.launchCall] ++ q.2.2
    if q.2.1 then
      ({ q.1 with restartCount := 0 }, effs)
    else
      let r := restart q.1 fail lf (k + 1)
      (r.1, effs ++ Effect.sleep 5000 :: r.2)
termination_by MAX_RESTARTS - s.restartCount
decreasing_by
  have hkeep : ∀ (x : SupState) (f : Option LaunchPhase),
      (launch x f).1.restartCount = x.restartCount := by
    intro x f
    have hstep : ∀ (y : SupState) (ph : LaunchPhase),
        (launchStep y ph).1.restartCount = y.restartCount := by
      intro y ph
      cases ph <;> rfl
    have hrun : ∀ (l : List LaunchPhase) (y : SupState),
        (runPhases f y l).1.restartCount = y.restartCount := by
      intro l
      induction l with
      | nil => intro y; rfl
      | cons ph rest ih =>
        intro y
        simp only [runPhases]
        split
        · rfl
        · rw [ih, hstep]
    simp [launch, hrun]
  rw [hkeep]
  simp only [stopAll]
  omega

/-- A running supervisor with all session resources live, used as a
concrete evaluation point. -/
def exampleRunning : SupState :=
  { mkSupervisor "profile-uuid" IPHONE_15_PRO with
      isRunning := true, browser := true, context := true, page := true,
      pageClosed := false, cdp := true, wsEndpoint := true,
      sensorInterval := true, healthInterval := true }

/-- Concrete tick randomness whose drift-probability draw succeeds. -/
def exampleRand : TickRand :=
  { rAlpha := 0.9, rBeta := 0.1, rGamma := 0.5, rGeoDraw := 0.1, rGeoDrift := 0.7,
    orientationSendFails := false }

/-- Concrete tick randomness whose drift-probability draw fails. -/
def exampleRandNoDrift : TickRand :=
  { exampleRand with rGeoDraw := 0.9 }

/-- A running supervisor carrying accumulated sensor drift, at a given
restart count. -/
def exampleDrifted (n : Nat) : SupState :=
  { exampleRunning with
      restartCount := n
      currentGeo := { lat := 41, lon := -73 }
      currentOrientation := { alpha := 100, beta := -10, gamma := 20 } }

/-- The teardown failure oracle under which no step throws. -/
def noTearFail : TeardownStep → Bool := fun _ => false

/-- A relaunch oracle whose attempts all succeed. -/
def launchAllOk : Nat → Option LaunchPhase := fun _ => none

/-- A relaunch oracle whose attempts all throw at the profile-start step. -/
def launchAllFail : Nat → Option LaunchPhase := fun _ => some .startProfile

/-- `Effect` is an attempted teardown step. -/
def isTeardown : Effect → Bool
  | .teardown _ _ => true
  | _ => false

/-- `Effect` is a `process.exit` call. -/
def isExit : Effect → Bool
  | .exitProcess _ => true
  | _ => false

/-- `Effect` is a sensor push (orientation or geolocation). -/
def isSensorPush (e : Effect) : Bool := isOrientationPush e || isGeoPush e

/-- `Effect` either is not a counter increment, or records a counter
value of at most `MAX_RESTARTS`. -/
def counterBounded : Effect → Bool
  | .incCounter n => decide (n ≤ MAX_RESTARTS)
  | _ => true

theorem launchStep_restartCount (s : SupState) (ph : LaunchPhase) :
    (launchStep s ph).1.restartCount = s.restartCount := by
  cases ph <;> rfl

theorem runPhases_restartCount (failAt : Option LaunchPhase) (s : SupState)
    (l : List LaunchPhase) : (runPhases failAt s l).1.restartCount = s.restartCount := by
  induction l generalizing s with
  | nil => rfl
  | cons ph rest ih =>
    simp only [runPhases]
    split
    · rfl
    · simpa [launchStep_restartCount] using ih (launchStep s ph).1

theorem launch_restartCount (s : SupState) (failAt : Option LaunchPhase) :
    (launch s failAt).1.restartCount = s.restartCount := by
  simp [launch, runPhases_restartCount]

theorem stopAll_restartCount (s : SupState) (silent : Bool) (fail : TeardownStep → Bool) :
    (stopAll s silent fail).1.restartCount = s.restartCount := rfl

theorem clamp_mem (v lo hi : ℚ) (h : lo ≤ hi) : lo ≤ clamp v lo hi ∧ clamp v lo hi ≤ hi :=
  ⟨le_max_left lo (min hi v), max_le h (min_le_left hi v)⟩

theorem sensorTick_orientation (s : SupState) (r : TickRand)
    (hrun : s.isRunning = true) (hcdp : s.cdp = true) :
    ((sensorTick s r).1).currentOrientation =
      { alpha := clamp (randomWalk s.currentOrientation.alpha s.config.movementNoise r.rAlpha)
          s.config.alphaRange.1 s.config.alphaRange.2,
        beta := clamp (randomWalk s.currentOrientation.beta s.config.movementNoise r.rBeta)
          s.config.betaRange.1 s.config.betaRange.2,
        gamma := clamp (randomWalk s.currentOrientation.gamma s.config.movementNoise r.rGamma)
          s.config.gammaRange.1 s.config.gammaRange.2 } := by
  simp only [sensorTick, hrun, hcdp, Bool.not_true, Bool.or_self, Bool.false_eq_true,
    if_false]
  split
  · rfl
  · split <;> rfl

/-- Claim C1: on every sensor tick that runs its body, each orientation
axis value after the tick lies within that axis's configured `[min, max]`
range (assuming each range has `min ≤ max`); and in general `clamp`
returns a value in `[lo, hi]` for every input whenever `lo ≤ hi`. -/
theorem tick_orientation_within_ranges (s : SupState) (r : TickRand)
    (hrun : s.isRunning = true) (hcdp : s.cdp = true)
    (ha : s.config.alphaRange.1 ≤ s.config.alphaRange.2)
    (hb : s.config.betaRange.1 ≤ s.config.betaRange.2)
    (hg : s.config.gammaRange.1 ≤ s.config.gammaRange.2) :
    (s.config.alphaRange.1 ≤ ((sensorTick s r).1).currentOrientation.alpha
      ∧ ((sensorTick s r).1).currentOrientation.alpha ≤ s.config.alphaRange.2)
    ∧ (s.config.betaRange.1 ≤ ((sensorTick s r).1).currentOrientation.beta
      ∧ ((sensorTick s r).1).currentOrientation.beta ≤ s.config.betaRange.2)
    ∧ (s.config.gammaRange.1 ≤ ((sensorTick s r).1).currentOrientation.gamma
      ∧ ((sensorTick s r).1).currentOrientation.gamma ≤ s.config.gammaRange.2)
    ∧ (∀ v lo hi : ℚ, lo ≤ hi → lo ≤ clamp v lo hi ∧ clamp v lo hi ≤ hi) := by
  rw [sensorTick_orientation s r hrun hcdp]
  exact ⟨clamp_mem _ _ _ ha, clamp_mem _ _ _ hb, clamp_mem _ _ _ hg,
    fun v lo hi h => clamp_mem v lo hi h⟩

theorem tick_orientation_within_ranges_witness :
    (exampleRunning.isRunning = true ∧ exampleRunning.cdp = true
      ∧ exampleRunning.config.alphaRange.1 ≤ exampleRunning.config.alphaRange.2
      ∧ exampleRunning.config.betaRange.1 ≤ exampleRunning.config.betaRange.2
      ∧ exampleRunning.config.gammaRange.1 ≤ exampleRunning.config.gammaRange.2)
    ∧ ((exampleRunning.config.alphaRange.1
          ≤ ((sensorTick exampleRunning exampleRand).1).currentOrientation.alpha
        ∧ ((sensorTick exampleRunning exampleRand).1).currentOrientation.alpha
          ≤ exampleRunning.config.alphaRange.2)
      ∧ (exampleRunning.config.betaRange.1
          ≤ ((sensorTick exampleRunning exampleRand).1).currentOrientation.beta
        ∧ ((sensorTick exampleRunning exampleRand).1).currentOrientation.beta
          ≤ exampleRunning.config.betaRange.2)
      ∧ (exampleRunning.config.gammaRange.1
          ≤ ((sensorTick exampleRunning exampleRand).1).currentOrientation.gamma
        ∧ ((sensorTick exampleRunning exampleRand).1).currentOrientation.gamma
          ≤ exampleRunning.config.gammaRange.2)
      ∧ (∀ v lo hi : ℚ, lo ≤ hi → lo ≤ clamp v lo hi ∧ clamp v lo hi ≤ hi)) :=
  ⟨⟨rfl, rfl, by decide, by decide, by decide⟩,
    tick_orientation_within_ranges exampleRunning exampleRand rfl rfl
      (by decide) (by decide) (by decide)⟩

/-- Claim C5: a sensor tick (with the supervisor running, a live CDP
session, and the orientation push not throwing) pushes geolocation if and
only if its drift-probability draw is below `GEO_DRIFT_PROBABILITY`; when
the draw fails the stored coordinates are unchanged; and the orientation
push is issued on every such tick. -/
theorem tick_geo_push_iff_draw (s : SupState) (r : TickRand)
    (hrun : s.isRunning = true) (hcdp : s.cdp = true)
    (hok : r.orientationSendFails = false) :
    (((sensorTick s r).2).any isGeoPush = decide (r.rGeoDraw < GEO_DRIFT_PROBABILITY))
    ∧ (¬ r.rGeoDraw < GEO_DRIFT_PROBABILITY → ((sensorTick s r).1).currentGeo = s.currentGeo)
    ∧ ((sensorTick s r).2).any isOrientationPush = true := by
  by_cases hdraw : r.rGeoDraw < GEO_DRIFT_PROBABILITY <;>
    simp [sensorTick, hrun, hcdp, hok, hdraw, isGeoPush, isOrientationPush]

theorem tick_geo_push_iff_draw_witness :
    (exampleRunning.isRunning = true ∧ exampleRunning.cdp = true
      ∧ exampleRand.orientationSendFails = false)
    ∧ ((((sensorTick exampleRunning exampleRand).2).any isGeoPush
        = decide (exampleRand.rGeoDraw < GEO_DRIFT_PROBABILITY))
      ∧ (¬ exampleRand.rGeoDraw < GEO_DRIFT_PROBABILITY
          → ((sensorTick exampleRunning exampleRand).1).currentGeo = exampleRunning.currentGeo)
      ∧ (((sensorTick exampleRunning exampleRand).2).any isOrientationPush = true)) :=
  ⟨⟨rfl, rfl, rfl⟩, tick_geo_push_iff_draw exampleRunning exampleRand rfl rfl rfl⟩

/-- Claim C6: for the profile-start retry policy (base delay 1200 ms,
cap 30000 ms), the inter-attempt backoff delays are non-decreasing and
every delay is at most the 30-second cap. -/
theorem retryDelay_monotone_capped (k : Nat) (hk : 1 ≤ k) :
    retryDelay k ≤ retryDelay (k + 1) ∧ retryDelay (k + 1) ≤ 30000 := by
  constructor
  · exact min_le_min
      (Nat.mul_le_mul le_rfl (Nat.pow_le_pow_right (by norm_num) (by omega))) le_rfl
  · exact min_le_right _ _

theorem retryDelay_monotone_capped_witness :
    1 ≤ 3 ∧ (retryDelay 3 ≤ retryDelay 4 ∧ retryDelay 4 ≤ 30000) :=
  ⟨by decide, retryDelay_monotone_capped 3 (by decide)⟩

/-- Claim C9: when the drift branch is taken, one shared uniform draw
perturbs both coordinates, so the longitude delta equals exactly
`LON_DRIFT_MULTIPLIER` (1.3) times the latitude delta. -/
theorem tick_lon_delta_correlated (s : SupState) (r : TickRand)
    (hrun : s.isRunning = true) (hcdp : s.cdp = true)
    (hok : r.orientationSendFails = false)
    (hdraw : r.rGeoDraw < GEO_DRIFT_PROBABILITY) :
    ((sensorTick s r).1).currentGeo.lon - s.currentGeo.lon
      = LON_DRIFT_MULTIPLIER * (((sensorTick s r).1).currentGeo.lat - s.currentGeo.lat) := by
  simp [sensorTick, hrun, hcdp, hok, hdraw]
  ring

theorem tick_lon_delta_correlated_witness :
    (exampleRunning.isRunning = true ∧ exampleRunning.cdp = true
      ∧ exampleRand.orientationSendFails = false
      ∧ exampleRand.rGeoDraw < GEO_DRIFT_PROBABILITY)
    ∧ ((sensorTick exampleRunning exampleRand).1).currentGeo.lon
        - exampleRunning.currentGeo.lon
      = LON_DRIFT_MULTIPLIER
        * (((sensorTick exampleRunning exampleRand).1).currentGeo.lat
            - exampleRunning.currentGeo.lat) :=
  ⟨⟨rfl, rfl, rfl, by norm_num [exampleRand, GEO_DRIFT_PROBABILITY]⟩,
    tick_lon_delta_correlated exampleRunning exampleRand rfl rfl rfl
      (by norm_num [exampleRand, GEO_DRIFT_PROBABILITY])⟩

/-- Claim C7: `stopAll` is idempotent — a second teardown immediately
after a completed first one leaves the state exactly as after the first,
and attempts no trace-stop, detach, page-close, context-close or
browser-close (each such resource was nulled by the first invocation and
every step is guarded). -/
theorem stopAll_idempotent (s : SupState) (silent silent' : Bool)
    (fail fail' : TeardownStep → Bool) :
    (stopAll (stopAll s silent fail).1 silent' fail').1 = (stopAll s silent fail).1
    ∧ (∀ b : Bool, Effect.teardown .traceStop b ∉ (stopAll (stopAll s silent fail).1 silent' fail').2)
    ∧ (∀ b : Bool, Effect.teardown .cdpDetach b ∉ (stopAll (stopAll s silent fail).1 silent' fail').2)
    ∧ (∀ b : Bool, Effect.teardown .pageClose b ∉ (stopAll (stopAll s silent fail).1 silent' fail').2)
    ∧ (∀ b : Bool, Effect.teardown .contextClose b ∉ (stopAll (stopAll s silent fail).1 silent' fail').2)
    ∧ (∀ b : Bool, Effect.teardown .browserClose b ∉ (stopAll (stopAll s silent fail).1 silent' fail').2) := by
  obtain ⟨uuid, cfg, br, cx, pg, pc, cdp, ws, run, si, hi, rc, geo, ori⟩ := s
  refine ⟨?_, ?_, ?_, ?_, ?_, ?_⟩
  · cases pg <;> cases pc <;> simp [stopAll]
  all_goals intro b
  all_goals cases pg <;> cases pc <;> simp [stopAll]

/-- Claim C8: in every teardown execution on a fully-live supervisor and
for every step-failure oracle, the emitted step sequence is exactly: clear
sensor timer, clear health timer, then trace stop, CDP detach, page
close, context close, browser close, profile-stop API (plus the exit only
when not silent) — so both timers are stopped before any session resource
is released, and every step is attempted regardless of which steps fail. -/
theorem stopAll_timers_first_all_steps (s : SupState) (silent : Bool)
    (fail : TeardownStep → Bool)
    (hsi : s.sensorInterval = true) (hhi : s.healthInterval = true)
    (hcx : s.context = true) (hcdp : s.cdp = true) (hpg : s.page = true)
    (hpc : s.pageClosed = false) (hbr : s.browser = true)
    (hu : ¬ s.profileUuid = "") :
    (stopAll s silent fail).2 =
      [Effect.teardown .clearSensorTimer false,
       Effect.teardown .clearHealthTimer false,
       Effect.teardown .traceStop (fail .traceStop),
       Effect.teardown .cdpDetach (fail .cdpDetach),
       Effect.teardown .pageClose (fail .pageClose),
       Effect.teardown .contextClose (fail .contextClose),
       Effect.teardown .browserClose (fail .browserClose),
       Effect.teardown .stopOcto (fail .stopOcto)]
      ++ (if silent then [] else [Effect.exitProcess 0]) := by
  simp [stopAll, hsi, hhi, hcx, hcdp, hpg, hpc, hbr, hu]

theorem stopAll_timers_first_all_steps_witness :
    (exampleRunning.sensorInterval = true ∧ exampleRunning.healthInterval = true
      ∧ exampleRunning.context = true ∧ exampleRunning.cdp = true
      ∧ exampleRunning.page = true ∧ exampleRunning.pageClosed = false
      ∧ exampleRunning.browser = true ∧ ¬ exampleRunning.profileUuid = "")
    ∧ (stopAll exampleRunning true noTearFail).2 =
      [Effect.teardown .clearSensorTimer false,
       Effect.teardown .clearHealthTimer false,
       Effect.teardown .traceStop (noTearFail .traceStop),
       Effect.teardown .cdpDetach (noTearFail .cdpDetach),
       Effect.teardown .pageClose (noTearFail .pageClose),
       Effect.teardown .contextClose (noTearFail .contextClose),
       Effect.teardown .browserClose (noTearFail .browserClose),
       Effect.teardown .stopOcto (noTearFail .stopOcto)]
      ++ (if true then [] else [Effect.exitProcess 0]) :=
  ⟨⟨rfl, rfl, rfl, rfl, rfl, rfl, rfl, by decide⟩,
    stopAll_timers_first_all_steps exampleRunning true noTearFail rfl rfl rfl rfl rfl
      rfl rfl (by decide)⟩

theorem launchStep_isRunning (s : SupState) (ph : LaunchPhase) :
    (launchStep s ph).1.isRunning = s.isRunning := by
  cases ph <;> rfl

theorem runPhases_isRunning (failAt : Option LaunchPhase) (s : SupState)
    (l : List LaunchPhase) : (runPhases failAt s l).1.isRunning = s.isRunning := by
  induction l generalizing s with
  | nil => rfl
  | cons ph rest ih =>
    simp only [runPhases]
    split
    · rfl
    · simpa [launchStep_isRunning] using ih (launchStep s ph).1

/-- Claim C10: `launch()` raises the running flag before any external
call; a launch that throws at any phase leaves the flag `true` (it is
never rolled back on failure) — a failure at the very first phase leaves
the state changed only by the flag — and the flag becomes `false`
(exactly) when `stopAll` runs. -/
theorem launch_flag_set_before_failure (s : SupState) (ph : LaunchPhase) :
    ((launch s (some ph)).1.isRunning = true)
    ∧ ((launch s (some ph)).2.1 = false)
    ∧ ((launch s (some .startProfile)).1 = { s with isRunning := true })
    ∧ (∀ (s' : SupState) (silent : Bool) (fail : TeardownStep → Bool),
        ((stopAll s' silent fail).1).isRunning = false) := by
  refine ⟨by simp [launch, runPhases_isRunning], ?_, ?_, fun s' silent fail => rfl⟩
  · cases ph <;> simp [launch, launchPhases, runPhases, launchStep]
  · simp [launch, launchPhases, runPhases]

theorem stopAll_silent_effects_teardown (s : SupState) (fail : TeardownStep → Bool) :
    ((stopAll s true fail).2).all isTeardown = true := by
  simp only [stopAll, List.all_append]
  split_ifs <;> simp [isTeardown]

theorem mem_stopAll_silent_isTeardown (s : SupState) (fail : TeardownStep → Bool)
    (e : Effect) (he : e ∈ (stopAll s true fail).2) : isTeardown e = true := by
  have h := stopAll_silent_effects_teardown s fail
  rw [List.all_eq_true] at h
  exact h e he

theorem launchStep_effects_push (s : SupState) (ph : LaunchPhase) :
    ((launchStep s ph).2).all isSensorPush = true := by
  cases ph <;> rfl

theorem runPhases_effects_push (failAt : Option LaunchPhase) (s : SupState)
    (l : List LaunchPhase) : ((runPhases failAt s l).2.2).all isSensorPush = true := by
  induction l generalizing s with
  | nil => rfl
  | cons ph rest ih =>
    simp only [runPhases]
    split
    · rfl
    · simp [List.all_append, launchStep_effects_push, ih]

theorem launch_effects_push (s : SupState) (failAt : Option LaunchPhase) :
    ((launch s failAt).2.2).all isSensorPush = true := by
  simp [launch, runPhases_effects_push]

theorem mem_launch_isSensorPush (s : SupState) (failAt : Option LaunchPhase)
    (e : Effect) (he : e ∈ (launch s failAt).2.2) : isSensorPush e = true := by
  have h := launch_effects_push s failAt
  rw [List.all_eq_true] at h
  exact h e he

theorem restart_at_max (s : SupState) (fail : TeardownStep → Bool)
    (lf : Nat → Option LaunchPhase) (k : Nat) (h : s.restartCount ≥ MAX_RESTARTS) :
    restart s fail lf k = stopAll s true fail := by
  rw [restart]
  simp [h]

theorem restartCount_set (s : SupState) (n : Nat) :
    ({ s with restartCount := n } : SupState).restartCount = n := rfl

theorem isTeardown_counterBounded (e : Effect) (h : isTeardown e = true) :
    counterBounded e = true := by
  cases e <;> simp_all [isTeardown, counterBounded]

theorem isSensorPush_counterBounded (e : Effect) (h : isSensorPush e = true) :
    counterBounded e = true := by
  cases e <;> simp_all [isSensorPush, isOrientationPush, isGeoPush, counterBounded]

theorem stopAll_silent_counterBounded (s : SupState) (fail : TeardownStep → Bool) :
    ((stopAll s true fail).2).all counterBounded = true := by
  rw [List.all_eq_true]
  intro e he
  exact isTeardown_counterBounded e (mem_stopAll_silent_isTeardown s fail e he)

theorem launch_counterBounded (s : SupState) (failAt : Option LaunchPhase) :
    ((launch s failAt).2.2).all counterBounded = true := by
  rw [List.all_eq_true]
  intro e he
  exact isSensorPush_counterBounded e (mem_launch_isSensorPush s failAt e he)

theorem restart_effects_inv (m : Nat) : ∀ (s : SupState) (fail : TeardownStep → Bool)
    (lf : Nat → Option LaunchPhase) (k : Nat),
    s.restartCount ≤ MAX_RESTARTS → MAX_RESTARTS - s.restartCount = m →
    ((restart s fail lf k).2).all counterBounded = true
    ∧ (restart s fail lf k).1.restartCount ≤ MAX_RESTARTS := by
  induction m with
  | zero =>
    intro s fail lf k h hm
    rw [restart_at_max s fail lf k (by omega)]
    exact ⟨stopAll_silent_counterBounded _ _, by simpa [stopAll_restartCount] using h⟩
  | succ m ih =>
    intro s fail lf k h hm
    by_cases hmax : s.restartCount ≥ MAX_RESTARTS
    · rw [restart_at_max s fail lf k hmax]
      exact ⟨stopAll_silent_counterBounded _ _, by simpa [stopAll_restartCount] using h⟩
    · rw [restart]
      simp only [hmax, dite_false]
      by_cases hq : (launch (stopAll { s with restartCount := s.restartCount + 1 } true fail).1
          (lf k)).2.1
      · simp only [hq, if_true]
        refine ⟨?_, by simp⟩
        simp only [List.all_cons, List.all_append, Bool.and_eq_true, restartCount_set]
        repeat' apply And.intro
        all_goals first
          | exact stopAll_silent_counterBounded _ _
          | exact launch_counterBounded _ _
          | (simp only [counterBounded, decide_eq_true_eq]; omega)
          | simp [counterBounded]
      · rw [Bool.not_eq_true] at hq
        simp only [hq, Bool.false_eq_true, if_false]
        have hrec := ih (launch (stopAll { s with restartCount := s.restartCount + 1 }
            true fail).1 (lf k)).1 fail lf (k + 1)
          (by rw [launch_restartCount, stopAll_restartCount, restartCount_set]; omega)
          (by rw [launch_restartCount, stopAll_restartCount, restartCount_set]; omega)
        refine ⟨?_, hrec.2⟩
        simp only [List.all_cons, List.all_append, Bool.and_eq_true, restartCount_set]
        repeat' apply And.intro
        all_goals first
          | exact stopAll_silent_counterBounded _ _
          | exact launch_counterBounded _ _
          | exact hrec.1
          | (simp only [counterBounded, decide_eq_true_eq]; omega)
          | simp [counterBounded]

/-- Claim C2: entering `restart()` with the counter at most the maximum
(7), the counter never exceeds the maximum — every increment recorded
during the call (including recursive relaunch retries) stays at most 7
and the final counter is at most 7 — and when entered with the counter
already at the maximum the call reduces to a final silent teardown with
no relaunch attempt. -/
theorem restart_counter_bounded (s : SupState) (fail : TeardownStep → Bool)
    (lf : Nat → Option LaunchPhase) (k : Nat) (h : s.restartCount ≤ MAX_RESTARTS) :
    (∀ n, Effect.incCounter n ∈ (restart s fail lf k).2 → n ≤ MAX_RESTARTS)
    ∧ (restart s fail lf k).1.restartCount ≤ MAX_RESTARTS
    ∧ (s.restartCount = MAX_RESTARTS →
        restart s fail lf k = stopAll s true fail
        ∧ Effect.launchCall ∉ (restart s fail lf k).2) := by
  obtain ⟨hall, h2⟩ := restart_effects_inv (MAX_RESTARTS - s.restartCount) s fail lf k h rfl
  refine ⟨fun n hn => ?_, h2, fun hmx => ?_⟩
  · have hcb := (List.all_eq_true.mp hall) _ hn
    simpa [counterBounded] using hcb
  have heq := restart_at_max s fail lf k (Nat.le_of_eq hmx.symm)
  refine ⟨heq, ?_⟩
  rw [heq]
  intro hmem
  have := mem_stopAll_silent_isTeardown _ _ _ hmem
  simp [isTeardown] at this

theorem restart_counter_bounded_witness :
    (exampleDrifted 7).restartCount ≤ MAX_RESTARTS
    ∧ ((∀ n, Effect.incCounter n ∈
          (restart (exampleDrifted 7) noTearFail launchAllFail 0).2 → n ≤ MAX_RESTARTS)
      ∧ (restart (exampleDrifted 7) noTearFail launchAllFail 0).1.restartCount ≤ MAX_RESTARTS
      ∧ ((exampleDrifted 7).restartCount = MAX_RESTARTS →
          restart (exampleDrifted 7) noTearFail launchAllFail 0
            = stopAll (exampleDrifted 7) true noTearFail
          ∧ Effect.launchCall ∉ (restart (exampleDrifted 7) noTearFail launchAllFail 0).2)) :=
  ⟨by decide, restart_counter_bounded (exampleDrifted 7) noTearFail launchAllFail 0 (by decide)⟩

/-- Claim C3 counterexample: entering `restart()` with the counter at the
maximum (7) does not terminate the process and produces no exit with code
1 — the final teardown is invoked silently, and the silent path of
`stopAll` never reaches `process.exit`. -/
theorem restart_exhausted_exit_counterexample :
    (exampleDrifted 7).restartCount = MAX_RESTARTS
    ∧ Effect.exitProcess 1 ∉ (restart (exampleDrifted 7) noTearFail launchAllOk 0).2
    ∧ ((restart (exampleDrifted 7) noTearFail launchAllOk 0).2).all
        (fun e => !isExit e) = true := by
  refine ⟨rfl, ?_, ?_⟩ <;> rw [restart_at_max _ _ _ _ (by decide)] <;> decide

/-- Claim C3 amended: when the restart budget is exhausted (`restart()`
entered with the counter at the maximum), the outcome is a final *silent*
teardown with no relaunch attempt; no `process.exit` of any code — in
particular not exit code 1 — is invoked on this path, because the silent
teardown skips the exit step (exit code 1 is produced only by the missing
configuration check and the top-level fatal handler). -/
theorem restart_exhausted_silent_no_exit (s : SupState) (fail : TeardownStep → Bool)
    (lf : Nat → Option LaunchPhase) (k : Nat) (h : s.restartCount ≥ MAX_RESTARTS) :
    restart s fail lf k = stopAll s true fail
    ∧ Effect.launchCall ∉ (restart s fail lf k).2
    ∧ ∀ c : Nat, Effect.exitProcess c ∉ (restart s fail lf k).2 := by
  have heq := restart_at_max s fail lf k h
  refine ⟨heq, ?_, fun c => ?_⟩
  · rw [heq]
    intro hmem
    have hT := mem_stopAll_silent_isTeardown _ _ _ hmem
    simp [isTeardown] at hT
  · rw [heq]
    intro hmem
    have hT := mem_stopAll_silent_isTeardown _ _ _ hmem
    simp [isTeardown] at hT

theorem restart_exhausted_silent_no_exit_witness :
    (exampleDrifted 7).restartCount ≥ MAX_RESTARTS
    ∧ (restart (exampleDrifted 7) noTearFail launchAllFail 1
          = stopAll (exampleDrifted 7) true noTearFail
      ∧ Effect.launchCall ∉ (restart (exampleDrifted 7) noTearFail launchAllFail 1).2
      ∧ ∀ c : Nat, Effect.exitProcess c
          ∉ (restart (exampleDrifted 7) noTearFail launchAllFail 1).2) :=
  ⟨by decide,
    restart_exhausted_silent_no_exit (exampleDrifted 7) noTearFail launchAllFail 1 (by decide)⟩

theorem runPhases_none_completes (s : SupState) (l : List LaunchPhase) :
    (runPhases none s l).2.1 = true := by
  induction l generalizing s with
  | nil => rfl
  | cons ph rest ih => simp [runPhases, ih]

theorem launch_none_completes (s : SupState) : (launch s none).2.1 = true := by
  simp [launch, runPhases_none_completes]

theorem launch_none_effects (s : SupState) :
    (launch s none).2.2 =
      [Effect.setGeolocation s.config.geoLat s.config.geoLon,
       Effect.setOrientationOverride s.currentOrientation.alpha s.currentOrientation.beta
         s.currentOrientation.gamma] := by
  simp [launch, launchPhases, runPhases, launchStep]

theorem launchStep_keeps (s : SupState) (ph : LaunchPhase) :
    (launchStep s ph).1.currentGeo = s.currentGeo
    ∧ (launchStep s ph).1.currentOrientation = s.currentOrientation
    ∧ (launchStep s ph).1.config = s.config := by
  cases ph <;> exact ⟨rfl, rfl, rfl⟩

theorem runPhases_keeps (failAt : Option LaunchPhase) (s : SupState) (l : List LaunchPhase) :
    (runPhases failAt s l).1.currentGeo = s.currentGeo
    ∧ (runPhases failAt s l).1.currentOrientation = s.currentOrientation
    ∧ (runPhases failAt s l).1.config = s.config := by
  induction l generalizing s with
  | nil => exact ⟨rfl, rfl, rfl⟩
  | cons ph rest ih =>
    simp only [runPhases]
    split
    · exact ⟨rfl, rfl, rfl⟩
    · obtain ⟨h1, h2, h3⟩ := ih (launchStep s ph).1
      obtain ⟨g1, g2, g3⟩ := launchStep_keeps s ph
      exact ⟨h1.trans g1, h2.trans g2, h3.trans g3⟩

theorem launch_keeps (s : SupState) (failAt : Option LaunchPhase) :
    (launch s failAt).1.currentGeo = s.currentGeo
    ∧ (launch s failAt).1.currentOrientation = s.currentOrientation
    ∧ (launch s failAt).1.config = s.config := by
  simpa [launch] using runPhases_keeps failAt { s with isRunning := true } launchPhases

theorem restart_relaunch_state (s : SupState) (fail : TeardownStep → Bool)
    (lf : Nat → Option LaunchPhase) (k : Nat)
    (h : s.restartCount < MAX_RESTARTS) (hl : lf k = none) :
    (restart s fail lf k).1.currentGeo = s.currentGeo
    ∧ (restart s fail lf k).1.currentOrientation = s.currentOrientation
    ∧ Effect.setGeolocation s.config.geoLat s.config.geoLon ∈ (restart s fail lf k).2
    ∧ Effect.setOrientationOverride s.currentOrientation.alpha s.currentOrientation.beta
        s.currentOrientation.gamma ∈ (restart s fail lf k).2 := by
  have hmax : ¬ s.restartCount ≥ MAX_RESTARTS := by omega
  rw [restart]
  simp only [hmax, dite_false, hl]
  have hq := launch_none_completes
    (stopAll { s with restartCount := s.restartCount + 1 } true fail).1
  simp only [hq, if_true]
  obtain ⟨k1, k2, k3⟩ := launch_keeps
    (stopAll { s with restartCount := s.restartCount + 1 } true fail).1 none
  refine ⟨?_, ?_, ?_, ?_⟩
  · exact k1
  · exact k2
  · rw [launch_none_effects]
    simp [stopAll]
  · rw [launch_none_effects]
    simp [stopAll]

/-- Claim C4 amended: on a restart whose relaunch succeeds, the internal
sensor state is NOT reset — the orientation axes and latitude/longitude
fields keep their accumulated drift.  What the relaunch does re-apply to
the session is the *configured* device-profile geolocation (pushed as an
override), while the orientation pushed at relaunch is the current
(drifted) orientation, not the construction values. -/
theorem restart_retains_drift (s : SupState) (fail : TeardownStep → Bool)
    (lf : Nat → Option LaunchPhase) (k : Nat)
    (h : s.restartCount < MAX_RESTARTS) (hl : lf k = none) :
    (restart s fail lf k).1.currentGeo = s.currentGeo
    ∧ (restart s fail lf k).1.currentOrientation = s.currentOrientation
    ∧ Effect.setGeolocation s.config.geoLat s.config.geoLon ∈ (restart s fail lf k).2
    ∧ Effect.setOrientationOverride s.currentOrientation.alpha s.currentOrientation.beta
        s.currentOrientation.gamma ∈ (restart s fail lf k).2 :=
  restart_relaunch_state s fail lf k h hl

theorem restart_retains_drift_witness :
    ((exampleDrifted 0).restartCount < MAX_RESTARTS ∧ launchAllOk 0 = none)
    ∧ ((restart (exampleDrifted 0) noTearFail launchAllOk 0).1.currentGeo
        = (exampleDrifted 0).currentGeo
      ∧ (restart (exampleDrifted 0) noTearFail launchAllOk 0).1.currentOrientation
        = (exampleDrifted 0).currentOrientation
      ∧ Effect.setGeolocation (exampleDrifted 0).config.geoLat (exampleDrifted 0).config.geoLon
          ∈ (restart (exampleDrifted 0) noTearFail launchAllOk 0).2
      ∧ Effect.setOrientationOverride (exampleDrifted 0).currentOrientation.alpha
          (exampleDrifted 0).currentOrientation.beta
          (exampleDrifted 0).currentOrientation.gamma
          ∈ (restart (exampleDrifted 0) noTearFail launchAllOk 0).2) :=
  ⟨⟨by decide, rfl⟩,
    restart_retains_drift (exampleDrifted 0) noTearFail launchAllOk 0 (by decide) rfl⟩

/-- Claim C4 counterexample: restarting from a concrete drifted state
with a successful relaunch leaves `currentOrientation = (100, -10, 20)`,
not the construction values `(35, 25, 10)`, and leaves
`currentGeo = (41, -73)`, not the configured device-profile coordinates
`(40.7128, -74.0060)` — the sensor state is not reset on restart. -/
theorem restart_reset_counterexample :
    (restart (exampleDrifted 0) noTearFail launchAllOk 0).1.currentOrientation
        = { alpha := 100, beta := -10, gamma := 20 }
    ∧ (mkSupervisor "profile-uuid" IPHONE_15_PRO).currentOrientation
        = { alpha := 35, beta := 25, gamma := 10 }
    ∧ ¬ (restart (exampleDrifted 0) noTearFail launchAllOk 0).1.currentOrientation
        = (mkSupervisor "profile-uuid" IPHONE_15_PRO).currentOrientation
    ∧ ¬ (restart (exampleDrifted 0) noTearFail launchAllOk 0).1.currentGeo
        = { lat := (exampleDrifted 0).config.geoLat, lon := (exampleDrifted 0).config.geoLon } := by
  obtain ⟨hg, ho, _, _⟩ :=
    restart_relaunch_state (exampleDrifted 0) noTearFail launchAllOk 0 (by decide) rfl
  refine ⟨?_, rfl, ?_, ?_⟩
  · rw [ho]
    rfl
  · rw [ho]
    intro hcontra
    have : (100 : ℚ) = 35 := congrArg Orientation.alpha hcontra
    norm_num at this
  · rw [hg]
    intro hcontra
    have : (41 : ℚ) = (40.7128 : ℚ) := congrArg Geo.lat hcontra
    norm_num at this

end Mokto
